import Mathlib

/-
Verification of the browser-side view layer of the genome-designer repository:
the generic DataTableComponent (datatable_component.js), the sample / reference
genome list views and the single reference genome detail view
(sample_list_view.js, ref_genome_list_view.js), and the CeleryManager admin
home page (CoffeeScript part of datatable_component.js).

JavaScript objects that are used as plain key-value dictionaries (datatable
parameter sets, request data) are modelled as association lists; property
assignment (`obj[key] = value`, as performed by `_.extend`) updates the first
binding of the key in place or appends a fresh binding, which matches the
behaviour of JS objects whose keys are unique.
-/

namespace Gd

/-- Row object: an opaque server-defined key-value record shown as one table row. -/
abbrev RowObj := List (String × String)

/-- Column configuration entry, with the keys documented in `updateDatatable`:
`mData` (key into the row object) and `sTitle` (column title). -/
structure FieldCfg where
  mData : String
  sTitle : String
deriving DecidableEq

/-- Values stored in a datatable parameter set: the object list (`aaData`),
the column configuration (`aoColumns`), or any other scalar option. -/
inductive DtValue where
  | rows (l : List RowObj)
  | cols (l : List FieldCfg)
  | str (s : String)
deriving DecidableEq

/-- A datatable parameter set, i.e. a JS object, as an association list. -/
abbrev Params := List (String × DtValue)

/-- Keys of a JS object model. -/
def alKeys (l : Params) : List String := l.map (fun p => p.1)

/-- Property read: the value bound to the first occurrence of the key. -/
def alLookup : Params → String → Option DtValue
  | [], _ => none
  | p :: t, k => if p.1 = k then some p.2 else alLookup t k

/-- Property assignment `obj[k] = v`: update the first binding in place,
or append a fresh binding when the key is absent. -/
def setKey : Params → String → DtValue → Params
  | [], k, v => [(k, v)]
  | p :: t, k, v => if p.1 = k then (k, v) :: t else p :: setKey t k v

/-- Model of `_.extend(dest, src)`: assign every property of `src` onto `dest`,
in order. -/
def uExtend (d s : Params) : Params :=
  s.foldl (fun acc p => setKey acc p.1 p.2) d

/-- Value bound to the LAST occurrence of the key (the value a sequence of JS
property assignments leaves behind). -/
def lastLookup (s : Params) (k : String) : Option DtValue :=
  alLookup s.reverse k

/-- Left-biased choice on optional values. -/
def orElseO (a b : Option DtValue) : Option DtValue :=
  match a with
  | some v => some v
  | none => b

@[simp] theorem alKeys_nil : alKeys [] = [] := rfl

@[simp] theorem alKeys_cons (p : String × DtValue) (t : Params) :
    alKeys (p :: t) = p.1 :: alKeys t := rfl

theorem alKeys_reverse (s : Params) : alKeys s.reverse = (alKeys s).reverse := by
  simp [alKeys]

theorem alLookup_append (l1 l2 : Params) (k : String) :
    alLookup (l1 ++ l2) k = orElseO (alLookup l1 k) (alLookup l2 k) := by
  induction l1 with
  | nil => simp [alLookup, orElseO]
  | cons p t ih =>
      by_cases h : p.1 = k <;> simp [alLookup, h, ih, orElseO]

theorem alLookup_setKey_self (d : Params) (k : String) (v : DtValue) :
    alLookup (setKey d k v) k = some v := by
  induction d with
  | nil => simp [setKey, alLookup]
  | cons p t ih =>
      by_cases h : p.1 = k
      · simp [setKey, h, alLookup]
      · simp [setKey, h, alLookup, ih]

theorem alLookup_setKey_ne (d : Params) (k k2 : String) (v : DtValue)
    (h : k2 ≠ k) :
    alLookup (setKey d k2 v) k = alLookup d k := by
  induction d with
  | nil => simp [setKey, alLookup, h]
  | cons p t ih =>
      by_cases hp : p.1 = k2
      · simp [setKey, hp, alLookup, h]
      · simp [setKey, hp, alLookup, ih]

theorem alLookup_eq_none_iff (s : Params) (k : String) :
    alLookup s k = none ↔ k ∉ alKeys s := by
  induction s with
  | nil => simp [alLookup]
  | cons p t ih =>
      by_cases h : p.1 = k
      · simp [alLookup, h]
      · simp only [alLookup, if_neg h, ih, alKeys_cons, List.mem_cons, not_or]
        exact ⟨fun hn => ⟨fun e => h e.symm, hn⟩, fun hc => hc.2⟩

theorem lastLookup_eq_none_iff (s : Params) (k : String) :
    lastLookup s k = none ↔ alLookup s k = none := by
  simp [lastLookup, alLookup_eq_none_iff, alKeys_reverse]

/-- Looking a key up after `_.extend(d, s)`: the last assignment from `s` wins,
and keys untouched by `s` keep their value from `d`. -/
theorem alLookup_uExtend (s d : Params) (k : String) :
    alLookup (uExtend d s) k = orElseO (lastLookup s k) (alLookup d k) := by
  induction s generalizing d with
  | nil => simp [uExtend, lastLookup, alLookup, orElseO]
  | cons p t ih =>
      have h1 : uExtend d (p :: t) = uExtend (setKey d p.1 p.2) t := rfl
      rw [h1, ih]
      have h2 : lastLookup (p :: t) k
          = orElseO (lastLookup t k) (alLookup [p] k) := by
        simp [lastLookup, List.reverse_cons, alLookup_append]
      rw [h2]
      cases hlt : lastLookup t k with
      | some v => simp [orElseO]
      | none =>
          simp only [orElseO]
          by_cases hp : p.1 = k
          · subst hp
            rw [alLookup_setKey_self]
            simp [alLookup]
          · rw [alLookup_setKey_ne d k p.1 p.2 hp]
            simp [alLookup, hp]

theorem lastLookup_eq_alLookup_of_nodup (s : Params) (k : String)
    (h : (alKeys s).Nodup) :
    lastLookup s k = alLookup s k := by
  induction s with
  | nil => rfl
  | cons p t ih =>
      rw [alKeys_cons, List.nodup_cons] at h
      have h2 : lastLookup (p :: t) k
          = orElseO (lastLookup t k) (alLookup [p] k) := by
        simp [lastLookup, List.reverse_cons, alLookup_append]
      rw [h2, ih h.2]
      by_cases hp : p.1 = k
      · have ht : alLookup t k = none := by
          rw [alLookup_eq_none_iff]
          rw [hp] at h
          exact h.1
        simp [ht, orElseO, alLookup, hp]
      · simp [alLookup, hp, orElseO]
        cases alLookup t k <;> rfl

/-- Values carried in request data sent with a fetch: strings (uids) or
numbers (the de-novo flag encoded as `0`/`1`). -/
inductive ReqValue where
  | str (s : String)
  | num (n : Nat)
deriving DecidableEq

/-- Request parameters: a flat key-value mapping sent with each fetch. -/
abbrev ReqData := List (String × ReqValue)

/-- An HTTP GET issued through `$.get(url, requestData, callback)`. -/
structure HttpRequest where
  url : String
  requestData : ReqData
deriving DecidableEq

/-- Options a `gd.DataTableComponent` is constructed with.  Absent JS
properties are modelled with `Option` / empty lists. -/
structure DTOptions where
  serverTarget : Option String
  requestData : ReqData
  objList : List RowObj
  fieldConfig : List FieldCfg
  controlsTemplate : Option String
  extraDatatableParams : Option Params
deriving DecidableEq

/-- Modelled from the spec: `makeDisplayableObjectList` is defined on
`AbstractDataTableComponent`, which is not part of the shown source; the spec
describes it only as a placeholder hook for value formatting, with no
formatting logic shown, so it is modelled as the identity transformation. -/
def makeDisplayableObjectList (objList : List RowObj) : List RowObj :=
  objList

/-- Modelled from the spec: `makeDisplayableFieldConfig` is defined on
`AbstractDataTableComponent`, which is not part of the shown source; as for
the object list, no formatting logic is shown, so it is modelled as the
identity transformation. -/
def makeDisplayableFieldConfig (fieldConfig : List FieldCfg) : List FieldCfg :=
  fieldConfig

/-- The third-party table widget handle returned by `.dataTable(params)`:
it keeps the parameter set it was instantiated with and displays the rows
supplied through the `aaData` parameter. -/
structure Datatable where
  params : Params
  rowsShown : List RowObj
deriving DecidableEq

/-- Instantiating the table widget on a fresh element with a parameter set. -/
def mkDataTable (params : Params) : Datatable :=
  { params := params,
    rowsShown :=
      match alLookup params "aaData" with
      | some (DtValue.rows l) => l
      | _ => [] }

/-- Model of `fnClearTable`: the widget forgets its displayed rows. -/
def fnClearTable (dt : Datatable) : Datatable :=
  { dt with rowsShown := [] }

/-- State of a `gd.DataTableComponent`.  `baseParams` models the result of
`getDataTableParams()`, which is inherited from `AbstractDataTableComponent`
(not part of the shown source) and is therefore kept abstract as an arbitrary
parameter set owned by the component. -/
structure DataTableComponent where
  options : DTOptions
  elId : String
  baseParams : Params
  datatable : Option Datatable
  datatableId : String
  elHtml : String
  displayableObjList : List RowObj
  displayableFieldConfig : List FieldCfg
deriving DecidableEq

/-- Effects of one `updateDatatable` call that are not visible in the
resulting component state: whether `fnClearTable` ran on the old widget. -/
structure DatatableTrace where
  fnClearTableCalled : Bool
deriving DecidableEq

/-- The table element html written into the hook element (the source
concatenates the class attribute and `id=` without a separating space). -/
def freshTableHtml (id : String) : String :=
  "<table cellpadding=\"0\" cellspacing=\"0\" border=\"0\" " ++
    "class=\"table table-striped table-bordered\"" ++
    "id=" ++ id ++ "></table>"

/-- Model of `updateDatatable(objList, fieldConfig)`: clear the existing
widget if there is one, write a fresh table element with the generated id
into the hook element, build the parameter set by extending
`getDataTableParams()` with `aaData`/`aoColumns` and then with any
`extraDatatableParams`, and instantiate the widget. -/
def DataTableComponent.updateDatatable (c : DataTableComponent)
    (objList : List RowObj) (fieldConfig : List FieldCfg) :
    DataTableComponent × DatatableTrace :=
  let cleared := c.datatable.isSome
  let dtId := c.elId ++ "-datatable"
  let html := freshTableHtml dtId
  let datatableParams := uExtend c.baseParams
      [("aaData", DtValue.rows objList), ("aoColumns", DtValue.cols fieldConfig)]
  let datatableParams2 :=
    match c.options.extraDatatableParams with
    | some extra => uExtend datatableParams extra
    | none => datatableParams
  ({ c with datatableId := dtId, elHtml := html,
            datatable := some (mkDataTable datatableParams2) },
   { fnClearTableCalled := cleared })

/-- Modelled from the spec: `addControlsFromTemplate` lives on
`AbstractDataTableComponent`, not in the shown source; per the spec it
"requests and injects a controls fragment beside the table", the template
endpoints being HTTP GET endpoints, so it is modelled as the GET it issues
for the controls fragment. -/
def addControlsFromTemplate (controlsTemplate : String) (requestData : ReqData) :
    HttpRequest :=
  { url := controlsTemplate, requestData := requestData }

/-- Model of `render()`: draw the datatable from the displayable data, then
fetch controls if a `controlsTemplate` was supplied (the selectpicker styling
touches only third-party DOM state and is not modelled).  Returns the new
component state and the requests issued. -/
def DataTableComponent.render (c : DataTableComponent) :
    DataTableComponent × List HttpRequest :=
  let r := c.updateDatatable c.displayableObjList c.displayableFieldConfig
  let reqs :=
    match r.1.options.controlsTemplate with
    | some tmpl => [addControlsFromTemplate tmpl r.1.options.requestData]
    | none => []
  (r.1, reqs)

/-- Model of `update(newObjList, newFieldConfig)`: re-normalize the new data
and re-render. -/
def DataTableComponent.update (c : DataTableComponent)
    (newObjList : List RowObj) (newFieldConfig : List FieldCfg) :
    DataTableComponent :=
  let c1 := { c with
    displayableObjList := makeDisplayableObjectList newObjList,
    displayableFieldConfig := makeDisplayableFieldConfig newFieldConfig }
  c1.render.1

/-- Outcome of running the component constructor: the component state after
the synchronous part, the requests issued synchronously, and whether `render`
already ran inside the constructor. -/
structure InitResult where
  component : DataTableComponent
  requests : List HttpRequest
  renderedSynchronously : Bool
deriving DecidableEq

/-- Model of `initializeFromServerTarget`: issue `$.get(serverTarget,
requestData, callback)`; rendering is deferred to the callback. -/
def initFromServerTarget (c : DataTableComponent) (target : String) :
    InitResult :=
  { component := c,
    requests := [{ url := target, requestData := c.options.requestData }],
    renderedSynchronously := false }

/-- Model of the component constructor (`initialize` in the source): start
with a null datatable handle; with a `serverTarget` defer to the async fetch,
otherwise normalize the supplied data and render synchronously. -/
def DataTableComponent.init (opts : DTOptions) (elId : String)
    (baseParams : Params) : InitResult :=
  let c0 : DataTableComponent := {
    options := opts, elId := elId, baseParams := baseParams,
    datatable := none, datatableId := "", elHtml := "",
    displayableObjList := [], displayableFieldConfig := [] }
  match opts.serverTarget with
  | some target => initFromServerTarget c0 target
  | none =>
      let c1 := { c0 with
        displayableObjList := makeDisplayableObjectList opts.objList,
        displayableFieldConfig := makeDisplayableFieldConfig opts.fieldConfig }
      let r := c1.render
      { component := r.1, requests := r.2, renderedSynchronously := true }

/-- Model of the `$.get` callback in `initializeFromServerTarget`: store the
response payload in the options, normalize it and render. -/
def DataTableComponent.handleServerResponse (c : DataTableComponent)
    (obj_list : List RowObj) (field_config : List FieldCfg) :
    DataTableComponent × List HttpRequest :=
  let c1 := { c with
    options := { c.options with objList := obj_list, fieldConfig := field_config },
    displayableObjList := makeDisplayableObjectList obj_list,
    displayableFieldConfig := makeDisplayableFieldConfig field_config }
  c1.render

/-- Rows currently displayed by the component's table. -/
def displayedRows (c : DataTableComponent) : List RowObj :=
  match c.datatable with
  | some dt => dt.rowsShown
  | none => []

/-- Parameter set the component's current widget was instantiated with. -/
def widgetParams (c : DataTableComponent) : Params :=
  match c.datatable with
  | some dt => dt.params
  | none => []

/-- The externally-owned Backbone model a view holds; it provides at least a
unique identifier read through `this.model.get('uid')`. -/
structure GdModel where
  uid : String
deriving DecidableEq

/-- The hidden download form `#gd-download-form`: its input fields (name,
value pairs) and whether it has been submitted. -/
structure DownloadForm where
  fields : List (String × String)
  submitted : Bool
deriving DecidableEq

/-- State of the single Reference Genome detail view (`gd.RefGenomeView`). -/
structure RefGenomeView where
  model : GdModel
deriving DecidableEq

/-- Modelled from the spec: `handleDownload` reads a bare global
`reference_genome_uid`, which is defined by the page template outside the
shown source; the spec identifies it with the uid of the view's owning model
object, so it is modelled as `this.model.get('uid')`. -/
def reference_genome_uid (v : RefGenomeView) : String :=
  v.model.uid

/-- Model of `_appendInputFieldToForm`: append one hidden input field. -/
def appendInputFieldToForm (form : DownloadForm) (name value : String) :
    DownloadForm :=
  { form with fields := form.fields ++ [(name, value)] }

/-- Model of `handleDownload(file_format)`: empty the hidden form, append the
`file_format` and `reference_genome_uid` fields, and submit it. -/
def RefGenomeView.handleDownload (v : RefGenomeView) (file_format : String)
    (form : DownloadForm) : DownloadForm :=
  let f0 := { form with fields := ([] : List (String × String)) }
  let f1 := appendInputFieldToForm f0 "file_format" file_format
  let f2 := appendInputFieldToForm f1 "reference_genome_uid" (reference_genome_uid v)
  { f2 with submitted := true }

/-- State of the Reference Genome list view (`gd.RefGenomeListView` of
ref_genome_list_view.js): the owning model and the mutable de-novo flag. -/
structure RefGenomeListView where
  model : GdModel
  show_de_novo : Bool
deriving DecidableEq

/-- Model of the view-state part of `render()`: set `show_de_novo` to true
(then `redrawDatatable()` runs on the updated state). -/
def RefGenomeListView.render (v : RefGenomeListView) : RefGenomeListView :=
  { v with show_de_novo := true }

/-- Options `redrawDatatable()` constructs the new `gd.DataTableComponent`
with: the `/_/ref_genomes` server target and request data carrying the
project uid and the de-novo flag encoded as `1`/`0`. -/
def RefGenomeListView.redrawOptions (v : RefGenomeListView) : DTOptions :=
  { serverTarget := some "/_/ref_genomes",
    requestData :=
      [("projectUid", ReqValue.str v.model.uid),
       ("show_de_novo", ReqValue.num (if v.show_de_novo then 1 else 0))],
    objList := [], fieldConfig := [],
    controlsTemplate := some "/_/templates/reference_genome_list_controls",
    extraDatatableParams := none }

/-- Model of `redrawDatatable()`: construct a fresh component on the list
view's hook element with the options above (the previous component was
destroyed first). -/
def RefGenomeListView.redrawDatatable (v : RefGenomeListView)
    (baseParams : Params) : InitResult :=
  DataTableComponent.init v.redrawOptions "gd-ref-genome-list-view-datatable-hook" baseParams

/-- Model of the `TOGGLE_DE_NOVO` handler wired in `decorateControls`:
negate the flag (then `redrawDatatable()` runs on the updated state). -/
def RefGenomeListView.handleToggleDeNovo (v : RefGenomeListView) :
    RefGenomeListView :=
  { v with show_de_novo := !v.show_de_novo }

/-- CSS class set of the bootstrap panel enclosing the admin test fieldset. -/
structure Panel where
  css : List String
deriving DecidableEq

/-- Model of jQuery `addClass`: add the class unless already present. -/
def addClass (p : Panel) (c : String) : Panel :=
  if c ∈ p.css then p else { css := p.css ++ [c] }

/-- Model of jQuery `removeClass`: drop every occurrence of the class. -/
def removeClass (p : Panel) (c : String) : Panel :=
  { css := p.css.filter (fun s => s ≠ c) }

/-- JSON payload of the admin test endpoint's response. -/
structure TestResponse where
  status : String
  message : String
deriving DecidableEq

namespace CeleryManager.HomeView

/-- Model of `success(fieldset, message)`: alert the message, swap
`panel-danger` for `panel-success` on the enclosing panel.  Returns the new
panel classes and the alerted message. -/
def success (fieldsetPanel : Panel) (message : String) : Panel × String :=
  (addClass (removeClass fieldsetPanel "panel-danger") "panel-success", message)

/-- Model of `error(fieldset, message)`: alert the message, swap
`panel-success` for `panel-danger` on the enclosing panel. -/
def error (fieldsetPanel : Panel) (message : String) : Panel × String :=
  (addClass (removeClass fieldsetPanel "panel-success") "panel-danger", message)

/-- Model of the response branch of `test`: on `status == "error"` call
`error` with the server message, otherwise call `success` with the fixed
string "Passed test!". -/
def test (fieldsetPanel : Panel) (data : TestResponse) : Panel × String :=
  if data.status = "error" then error fieldsetPanel data.message
  else success fieldsetPanel "Passed test!"

end CeleryManager.HomeView

/-- One alternative of the regex octet group
`25[0-5]|2[0-4]\d|[01]?\d\d?`, applied to one dot- or dash-separated chunk. -/
def octet : List Char → Bool
  | [a] => a.isDigit
  | [a, b] => a.isDigit && b.isDigit
  | [a, b, c] =>
      ((a == '2') && (b == '5') && decide ('0' ≤ c) && decide (c ≤ '5'))
      || ((a == '2') && decide ('0' ≤ b) && decide (b ≤ '4') && c.isDigit)
      || (((a == '0') || (a == '1')) && b.isDigit && c.isDigit)
  | _ => false

/-- Split a character list on a separator character. -/
def splitOnChar (sep : Char) : List Char → List (List Char)
  | [] => [[]]
  | c :: cs =>
      let r := splitOnChar sep cs
      if c == sep then [] :: r
      else
        match r with
        | [] => [[c]]
        | h :: t => (c :: h) :: t

/-- Model of `ipv4regex.test(value)`: four octet groups joined by dots,
anchored on both sides. -/
def ipv4Test (s : String) : Bool :=
  match splitOnChar '.' s.toList with
  | [a, b, c, d] => octet a && octet b && octet c && octet d
  | _ => false

/-- The literal suffix of the EC2 hostname regex. -/
def ec2SuffixChars : List Char :=
  ".compute-1.amazonaws.com".toList

/-- Model of `ec2regex.test(value)` (case-insensitive): `ec2-` followed by
four dash-separated octet groups and the amazonaws suffix, anchored. -/
def ec2Test (s : String) : Bool :=
  match s.toList.map Char.toLower with
  | 'e' :: 'c' :: '2' :: '-' :: rest =>
      let body := rest.take (rest.length - ec2SuffixChars.length)
      let tl := rest.drop (rest.length - ec2SuffixChars.length)
      (tl == ec2SuffixChars) &&
        (match splitOnChar '-' body with
         | [a, b, c, d] => octet a && octet b && octet c && octet d
         | _ => false)
  | _ => false

/-- Model of the `domainOrIpv4` validator method: a field passes when it is
optional (and may be left blank) or matches either regex. -/
def domainOrIpv4 (optionalField : Bool) (value : String) : Bool :=
  optionalField || ec2Test value || ipv4Test value

theorem mem_addClass_self (p : Panel) (c : String) : c ∈ (addClass p c).css := by
  unfold addClass
  by_cases h : c ∈ p.css
  · simp [h]
  · simp [h]

theorem mem_addClass_iff (p : Panel) (c d : String) :
    d ∈ (addClass p c).css ↔ d ∈ p.css ∨ d = c := by
  unfold addClass
  by_cases h : c ∈ p.css
  · simp only [if_pos h]
    exact ⟨Or.inl, fun hd => hd.elim id (fun e => e ▸ h)⟩
  · simp [h]

theorem mem_removeClass_iff (p : Panel) (c d : String) :
    d ∈ (removeClass p c).css ↔ d ∈ p.css ∧ d ≠ c := by
  simp [removeClass, List.mem_filter]

/-- Sample column configuration used by concrete witnesses. -/
def sampleFieldCfg : FieldCfg :=
  { mData := "label", sTitle := "Label" }

/-- Sample row object used by concrete witnesses. -/
def sampleRow : RowObj :=
  [("label", "chrom-1")]

/-- Sample options for a direct-data component without controls. -/
def directPlainOptions : DTOptions :=
  { serverTarget := none, requestData := [],
    objList := [sampleRow], fieldConfig := [sampleFieldCfg],
    controlsTemplate := none, extraDatatableParams := none }

/-- Sample component state used by concrete witnesses. -/
def sampleComponent : DataTableComponent :=
  { options := directPlainOptions, elId := "gd-hook",
    baseParams := [("sDom", DtValue.str "tipl")],
    datatable := none, datatableId := "", elHtml := "",
    displayableObjList := [sampleRow],
    displayableFieldConfig := [sampleFieldCfg] }

/-- Claim C1: for each file format in fasta, genbank, `handleDownload`
empties the hidden download form and submits it containing exactly the two
hidden fields `file_format` (the requested format) and `reference_genome_uid`
(the uid of the view's owning model object). -/
theorem C1_handleDownload_form_fields (v : RefGenomeView) (form : DownloadForm) :
    v.handleDownload "fasta" form =
      { fields := [("file_format", "fasta"), ("reference_genome_uid", v.model.uid)],
        submitted := true }
    ∧ v.handleDownload "genbank" form =
      { fields := [("file_format", "genbank"), ("reference_genome_uid", v.model.uid)],
        submitted := true } :=
  ⟨rfl, rfl⟩

/-- Claim C3: handling `TOGGLE_DE_NOVO` twice returns the `show_de_novo`
value encoded in the redraw request data to its original value; the toggle
composed with itself is the identity on the request data. -/
theorem C3_toggle_de_novo_involutive (v : RefGenomeListView) :
    (v.handleToggleDeNovo.handleToggleDeNovo).redrawOptions.requestData
      = v.redrawOptions.requestData := by
  simp [RefGenomeListView.handleToggleDeNovo, RefGenomeListView.redrawOptions]

/-- Claim C4: the domain/IP validator accepts `192.168.1.1` and
`ec2-54-1-2-3.compute-1.amazonaws.com` and rejects `999.1.1.1` and
`not-a-host`, for a non-optional field. -/
theorem C4_domainOrIpv4_examples :
    domainOrIpv4 false "192.168.1.1" = true
    ∧ domainOrIpv4 false "ec2-54-1-2-3.compute-1.amazonaws.com" = true
    ∧ domainOrIpv4 false "999.1.1.1" = false
    ∧ domainOrIpv4 false "not-a-host" = false := by
  refine ⟨?_, ?_, ?_, ?_⟩ <;> decide

/-- Claim C2: `updateDatatable` clears the existing widget exactly when one
already exists; when none exists it writes a fresh table element whose
generated id is derived from the hook element's id; and in either case it
instantiates the widget with the base parameter set extended by `aaData`
bound to the object list and `aoColumns` bound to the field configuration,
further extended by any caller-supplied extra datatable parameters. -/
theorem C2_updateDatatable_spec (c : DataTableComponent) (objList : List RowObj)
    (fieldConfig : List FieldCfg) :
    (c.updateDatatable objList fieldConfig).2.fnClearTableCalled = c.datatable.isSome
    ∧ (c.datatable = none →
        (c.updateDatatable objList fieldConfig).1.datatableId = c.elId ++ "-datatable"
        ∧ (c.updateDatatable objList fieldConfig).1.elHtml
            = freshTableHtml (c.elId ++ "-datatable"))
    ∧ (c.updateDatatable objList fieldConfig).1.datatable =
        some (mkDataTable (uExtend (uExtend c.baseParams
          [("aaData", DtValue.rows objList), ("aoColumns", DtValue.cols fieldConfig)])
          ((c.options.extraDatatableParams).getD []))) := by
  refine ⟨rfl, fun h => ⟨rfl, rfl⟩, ?_⟩
  cases hopt : c.options.extraDatatableParams with
  | none => simp [DataTableComponent.updateDatatable, hopt, uExtend]
  | some extra => simp [DataTableComponent.updateDatatable, hopt]

/-- Witness for C2 at a concrete component without a previous widget. -/
theorem C2_updateDatatable_spec_witness :
    (sampleComponent.updateDatatable [sampleRow] [sampleFieldCfg]).2.fnClearTableCalled
        = sampleComponent.datatable.isSome
    ∧ ((sampleComponent.updateDatatable [sampleRow] [sampleFieldCfg]).1.datatableId
          = sampleComponent.elId ++ "-datatable"
        ∧ (sampleComponent.updateDatatable [sampleRow] [sampleFieldCfg]).1.elHtml
          = freshTableHtml (sampleComponent.elId ++ "-datatable"))
    ∧ (sampleComponent.updateDatatable [sampleRow] [sampleFieldCfg]).1.datatable =
        some (mkDataTable (uExtend (uExtend sampleComponent.baseParams
          [("aaData", DtValue.rows [sampleRow]),
           ("aoColumns", DtValue.cols [sampleFieldCfg])])
          ((sampleComponent.options.extraDatatableParams).getD []))) :=
  ⟨(C2_updateDatatable_spec sampleComponent [sampleRow] [sampleFieldCfg]).1,
   (C2_updateDatatable_spec sampleComponent [sampleRow] [sampleFieldCfg]).2.1 rfl,
   (C2_updateDatatable_spec sampleComponent [sampleRow] [sampleFieldCfg]).2.2⟩

/-- Sample panel state used by concrete witnesses. -/
def samplePanel : Panel :=
  { css := ["panel", "panel-success"] }

/-- Sample error response of the admin test endpoint. -/
def sampleErrorResponse : TestResponse :=
  { status := "error", message := "bad host" }

/-- Sample non-error response of the admin test endpoint. -/
def sampleOkResponse : TestResponse :=
  { status := "ok", message := "ignored" }

/-- Claim C5: the admin test handler leaves the panel with `panel-danger` and
without `panel-success` exactly when the response status is "error", and with
`panel-success` and without `panel-danger` for every other status. -/
theorem C5_admin_test_panel_classes (p : Panel) (data : TestResponse) :
    (data.status = "error" →
       "panel-danger" ∈ (CeleryManager.HomeView.test p data).1.css
       ∧ "panel-success" ∉ (CeleryManager.HomeView.test p data).1.css)
    ∧ (data.status ≠ "error" →
       "panel-success" ∈ (CeleryManager.HomeView.test p data).1.css
       ∧ "panel-danger" ∉ (CeleryManager.HomeView.test p data).1.css) := by
  refine ⟨fun h => ?_, fun h => ?_⟩
  · have e : CeleryManager.HomeView.test p data
        = CeleryManager.HomeView.error p data.message := by
      simp [CeleryManager.HomeView.test, h]
    rw [e]
    refine ⟨mem_addClass_self (removeClass p "panel-success") "panel-danger",
            fun hmem => ?_⟩
    rcases (mem_addClass_iff (removeClass p "panel-success") "panel-danger"
        "panel-success").1 hmem with h1 | h1
    · exact ((mem_removeClass_iff p "panel-success" "panel-success").1 h1).2 rfl
    · exact absurd h1 (by decide)
  · have e : CeleryManager.HomeView.test p data
        = CeleryManager.HomeView.success p "Passed test!" := by
      simp [CeleryManager.HomeView.test, h]
    rw [e]
    refine ⟨mem_addClass_self (removeClass p "panel-danger") "panel-success",
            fun hmem => ?_⟩
    rcases (mem_addClass_iff (removeClass p "panel-danger") "panel-success"
        "panel-danger").1 hmem with h1 | h1
    · exact ((mem_removeClass_iff p "panel-danger" "panel-danger").1 h1).2 rfl
    · exact absurd h1 (by decide)

/-- Witness for C5 at a concrete panel, one error and one ok response. -/
theorem C5_admin_test_panel_classes_witness :
    ("panel-danger" ∈ (CeleryManager.HomeView.test samplePanel sampleErrorResponse).1.css
      ∧ "panel-success" ∉ (CeleryManager.HomeView.test samplePanel sampleErrorResponse).1.css)
    ∧ ("panel-success" ∈ (CeleryManager.HomeView.test samplePanel sampleOkResponse).1.css
      ∧ "panel-danger" ∉ (CeleryManager.HomeView.test samplePanel sampleOkResponse).1.css) :=
  ⟨(C5_admin_test_panel_classes samplePanel sampleErrorResponse).1 rfl,
   (C5_admin_test_panel_classes samplePanel sampleOkResponse).2 (by decide)⟩

/-- Claim C9: the alert shown on any non-"error" response is the fixed string
"Passed test!", ignoring the server-supplied message, which is surfaced only
on the error path. -/
theorem C9_success_alert_fixed (p : Panel) (data : TestResponse) :
    (data.status ≠ "error" →
       (CeleryManager.HomeView.test p data).2 = "Passed test!")
    ∧ (data.status = "error" →
       (CeleryManager.HomeView.test p data).2 = data.message) := by
  refine ⟨fun h => ?_, fun h => ?_⟩ <;>
    simp [CeleryManager.HomeView.test, h, CeleryManager.HomeView.success,
          CeleryManager.HomeView.error]

/-- Witness for C9 at one ok and one error response. -/
theorem C9_success_alert_fixed_witness :
    (CeleryManager.HomeView.test samplePanel sampleOkResponse).2 = "Passed test!"
    ∧ (CeleryManager.HomeView.test samplePanel sampleErrorResponse).2 = "bad host" :=
  ⟨(C9_success_alert_fixed samplePanel sampleOkResponse).1 (by decide),
   (C9_success_alert_fixed samplePanel sampleErrorResponse).2 rfl⟩

theorem lastLookup_aa_pair (X : List RowObj) (Y : List FieldCfg) :
    lastLookup [("aaData", DtValue.rows X), ("aoColumns", DtValue.cols Y)] "aaData"
      = some (DtValue.rows X) := by
  simp [lastLookup, alLookup]

theorem rowsShown_mkDataTable (P : Params) (l : List RowObj)
    (h : alLookup P "aaData" = some (DtValue.rows l)) :
    (mkDataTable P).rowsShown = l := by
  simp [mkDataTable, h]

/-- After `updateDatatable`, the widget shows exactly the supplied object
list, provided the extra datatable parameters do not pin `aaData`. -/
theorem rowsShown_updateDatatable (c : DataTableComponent) (o : List RowObj)
    (f : List FieldCfg)
    (h : alLookup ((c.options.extraDatatableParams).getD []) "aaData" = none) :
    displayedRows (c.updateDatatable o f).1 = o := by
  cases hopt : c.options.extraDatatableParams with
  | none =>
      have hP : alLookup (uExtend c.baseParams
          [("aaData", DtValue.rows o), ("aoColumns", DtValue.cols f)]) "aaData"
          = some (DtValue.rows o) := by
        rw [alLookup_uExtend, lastLookup_aa_pair]
        rfl
      have hr := rowsShown_mkDataTable _ _ hP
      simp [DataTableComponent.updateDatatable, hopt, displayedRows, hr]
  | some extra =>
      rw [hopt] at h
      simp only [Option.getD] at h
      have hl : lastLookup extra "aaData" = none :=
        (lastLookup_eq_none_iff extra "aaData").mpr h
      have hP : alLookup (uExtend (uExtend c.baseParams
          [("aaData", DtValue.rows o), ("aoColumns", DtValue.cols f)]) extra) "aaData"
          = some (DtValue.rows o) := by
        rw [alLookup_uExtend, hl]
        simp only [orElseO]
        rw [alLookup_uExtend, lastLookup_aa_pair]
        rfl
      have hr := rowsShown_mkDataTable _ _ hP
      simp [DataTableComponent.updateDatatable, hopt, displayedRows, hr]

/-- Component that was already rendered (via a direct-data constructor) with
extra datatable parameters that pin `aaData` to a stale row list. -/
def staleExtrasOptions : DTOptions :=
  { serverTarget := none, requestData := [],
    objList := [sampleRow], fieldConfig := [sampleFieldCfg],
    controlsTemplate := none,
    extraDatatableParams := some [("aaData", DtValue.rows [[("label", "stale-row")]])] }

/-- The already-rendered component built from `staleExtrasOptions`. -/
def staleExtrasComponent : DataTableComponent :=
  (DataTableComponent.init staleExtrasOptions "gd-hook" []).component

/-- Claim C8 counterexample: on an already-rendered component whose
`extraDatatableParams` carry an `aaData` key, `update` with a new object list
does not display the new list: the caller-supplied `aaData` is merged after
the component's own and wins (the behaviour stated by C10). -/
theorem C8_update_counterexample :
    displayedRows (staleExtrasComponent.update [[("label", "new-row")]] [sampleFieldCfg])
      ≠ [[("label", "new-row")]] := by
  decide

/-- Claim C8 (amended): for every already-rendered component whose extra
datatable parameters do not supply an `aaData` key, `update(newObjList,
newFieldConfig)` re-normalizes the new data and re-renders so that the
displayed rows are exactly the new object list, with no residual rows from
the prior data set; when the extra parameters do supply `aaData`, the
caller-supplied value wins instead. -/
theorem C8_update_replaces_rows (c : DataTableComponent)
    (newObjList : List RowObj) (newFieldConfig : List FieldCfg)
    (h : alLookup ((c.options.extraDatatableParams).getD []) "aaData" = none) :
    displayedRows (c.update newObjList newFieldConfig) = newObjList := by
  have hr := rowsShown_updateDatatable
    { c with displayableObjList := makeDisplayableObjectList newObjList,
             displayableFieldConfig := makeDisplayableFieldConfig newFieldConfig }
    (makeDisplayableObjectList newObjList)
    (makeDisplayableFieldConfig newFieldConfig) h
  exact hr

/-- Witness for C8 on a concrete component without extra parameters. -/
theorem C8_update_replaces_rows_witness :
    displayedRows (sampleComponent.update [[("label", "fresh")]] [sampleFieldCfg])
      = [[("label", "fresh")]] :=
  C8_update_replaces_rows sampleComponent [[("label", "fresh")]] [sampleFieldCfg] rfl

/-- Claim C10: `extraDatatableParams` are merged into the widget parameter
set after `aaData` and `aoColumns`, so a caller-supplied `aaData` or
`aoColumns` value overrides the component's own object list or column
configuration, whatever object list and field configuration are passed. -/
theorem C10_extra_params_override (c : DataTableComponent) (objList : List RowObj)
    (fieldConfig : List FieldCfg) (extras : Params) (v w : DtValue)
    (hext : c.options.extraDatatableParams = some extras)
    (hnd : (alKeys extras).Nodup) :
    (alLookup extras "aaData" = some v →
       alLookup (widgetParams (c.updateDatatable objList fieldConfig).1) "aaData"
         = some v)
    ∧ (alLookup extras "aoColumns" = some w →
       alLookup (widgetParams (c.updateDatatable objList fieldConfig).1) "aoColumns"
         = some w) := by
  have hw : widgetParams (c.updateDatatable objList fieldConfig).1
      = uExtend (uExtend c.baseParams
          [("aaData", DtValue.rows objList), ("aoColumns", DtValue.cols fieldConfig)])
          extras := by
    simp [DataTableComponent.updateDatatable, hext, widgetParams, mkDataTable]
  refine ⟨fun h => ?_, fun h => ?_⟩ <;>
    rw [hw, alLookup_uExtend, lastLookup_eq_alLookup_of_nodup extras _ hnd, h] <;> rfl

/-- Extra parameters pinning both `aaData` and `aoColumns`. -/
def overrideExtras : Params :=
  [("aaData", DtValue.rows [[("label", "pinned")]]),
   ("aoColumns", DtValue.cols [sampleFieldCfg])]

/-- Component carrying `overrideExtras`. -/
def overrideComponent : DataTableComponent :=
  { sampleComponent with
    options := { directPlainOptions with extraDatatableParams := some overrideExtras } }

/-- Witness for C10 on a concrete component whose extras pin both keys. -/
theorem C10_extra_params_override_witness :
    alLookup (widgetParams (overrideComponent.updateDatatable [sampleRow] []).1) "aaData"
      = some (DtValue.rows [[("label", "pinned")]])
    ∧ alLookup (widgetParams (overrideComponent.updateDatatable [sampleRow] []).1) "aoColumns"
      = some (DtValue.cols [sampleFieldCfg]) :=
  ⟨(C10_extra_params_override overrideComponent [sampleRow] [] overrideExtras
      (DtValue.rows [[("label", "pinned")]]) (DtValue.cols [sampleFieldCfg])
      rfl (by decide)).1 rfl,
   (C10_extra_params_override overrideComponent [sampleRow] [] overrideExtras
      (DtValue.rows [[("label", "pinned")]]) (DtValue.cols [sampleFieldCfg])
      rfl (by decide)).2 rfl⟩

/-- Direct-data options that also carry a controls template. -/
def directWithControlsOptions : DTOptions :=
  { serverTarget := none, requestData := [("projectUid", ReqValue.str "project-1")],
    objList := [sampleRow], fieldConfig := [sampleFieldCfg],
    controlsTemplate := some "/_/templates/sample_list_controls",
    extraDatatableParams := none }

/-- Claim C6 counterexample: constructing with direct data (no
`serverTarget`) but with a `controlsTemplate` is not network-silent: the
synchronous render issues the GET for the controls fragment. -/
theorem C6_direct_construction_issues_request :
    (DataTableComponent.init directWithControlsOptions "gd-hook" []).requests ≠ [] := by
  decide

/-- Claim C6 (amended): constructing with direct data (no `serverTarget`)
normalizes both inputs and renders synchronously within the constructor; it
issues no network request when no `controlsTemplate` is supplied, and with a
`controlsTemplate` its only request is the GET for the controls fragment.  A
data GET is issued only when `serverTarget` is present, and then exactly one
GET to it carrying `requestData` as query parameters. -/
theorem C6_init_network_behavior (opts : DTOptions) (elId : String)
    (baseParams : Params) :
    (opts.serverTarget = none →
       (DataTableComponent.init opts elId baseParams).renderedSynchronously = true
       ∧ (DataTableComponent.init opts elId baseParams).component.displayableObjList
           = makeDisplayableObjectList opts.objList
       ∧ (DataTableComponent.init opts elId baseParams).component.displayableFieldConfig
           = makeDisplayableFieldConfig opts.fieldConfig
       ∧ (opts.controlsTemplate = none →
           (DataTableComponent.init opts elId baseParams).requests = [])
       ∧ (∀ tmpl, opts.controlsTemplate = some tmpl →
           (DataTableComponent.init opts elId baseParams).requests
             = [addControlsFromTemplate tmpl opts.requestData]))
    ∧ (∀ target, opts.serverTarget = some target →
         (DataTableComponent.init opts elId baseParams).requests
           = [{ url := target, requestData := opts.requestData }]
         ∧ (DataTableComponent.init opts elId baseParams).renderedSynchronously
             = false) := by
  constructor
  · intro hst
    refine ⟨?_, ?_, ?_, ?_, ?_⟩
    · simp [DataTableComponent.init, hst]
    · simp [DataTableComponent.init, hst, DataTableComponent.render,
            DataTableComponent.updateDatatable]
    · simp [DataTableComponent.init, hst, DataTableComponent.render,
            DataTableComponent.updateDatatable]
    · intro hct
      simp [DataTableComponent.init, hst, hct, DataTableComponent.render,
            DataTableComponent.updateDatatable]
    · intro tmpl hct
      simp [DataTableComponent.init, hst, hct, DataTableComponent.render,
            DataTableComponent.updateDatatable, addControlsFromTemplate]
  · intro target hst
    constructor <;> simp [DataTableComponent.init, hst, initFromServerTarget]

/-- Server-target options of the sample list view. -/
def serverListOptions : DTOptions :=
  { serverTarget := some "/_/samples",
    requestData := [("projectUid", ReqValue.str "project-1")],
    objList := [], fieldConfig := [],
    controlsTemplate := some "/_/templates/sample_list_controls",
    extraDatatableParams := none }

/-- Witness for C6 at one direct-data and one server-target construction. -/
theorem C6_init_network_behavior_witness :
    ((DataTableComponent.init directPlainOptions "gd-hook" []).renderedSynchronously = true
      ∧ (DataTableComponent.init directPlainOptions "gd-hook" []).requests = [])
    ∧ ((DataTableComponent.init serverListOptions "gd-hook" []).requests
          = [{ url := "/_/samples",
               requestData := [("projectUid", ReqValue.str "project-1")] }]
      ∧ (DataTableComponent.init serverListOptions "gd-hook" []).renderedSynchronously
          = false) :=
  ⟨⟨((C6_init_network_behavior directPlainOptions "gd-hook" []).1 rfl).1,
    ((C6_init_network_behavior directPlainOptions "gd-hook" []).1 rfl).2.2.2.1 rfl⟩,
   (C6_init_network_behavior serverListOptions "gd-hook" []).2 "/_/samples" rfl⟩

/-- Claim C7: the Reference Genome list view initializes `show_de_novo` to
true on render; the redraw request targets `/_/ref_genomes` and its request
data carries the model's project uid together with `show_de_novo` encoded as
the integer 1 when the flag is true and 0 when it is false. -/
theorem C7_ref_genome_request_encoding (v : RefGenomeListView) (baseParams : Params) :
    (v.render).show_de_novo = true
    ∧ (v.render).redrawOptions.requestData
        = [("projectUid", ReqValue.str v.model.uid), ("show_de_novo", ReqValue.num 1)]
    ∧ (v.redrawDatatable baseParams).requests
        = [{ url := "/_/ref_genomes", requestData := v.redrawOptions.requestData }]
    ∧ (v.show_de_novo = true →
        v.redrawOptions.requestData
          = [("projectUid", ReqValue.str v.model.uid), ("show_de_novo", ReqValue.num 1)])
    ∧ (v.show_de_novo = false →
        v.redrawOptions.requestData
          = [("projectUid", ReqValue.str v.model.uid), ("show_de_novo", ReqValue.num 0)]) := by
  refine ⟨rfl, rfl, rfl, fun h => ?_, fun h => ?_⟩ <;>
    simp [RefGenomeListView.redrawOptions, h]

/-- Sample Reference Genome list view with the flag set. -/
def sampleRefListViewTrue : RefGenomeListView :=
  { model := { uid := "project-1" }, show_de_novo := true }

/-- Sample Reference Genome list view with the flag cleared. -/
def sampleRefListViewFalse : RefGenomeListView :=
  { model := { uid := "project-1" }, show_de_novo := false }

/-- Witness for C7 at concrete views with the flag set and cleared. -/
theorem C7_ref_genome_request_encoding_witness :
    sampleRefListViewTrue.redrawOptions.requestData
        = [("projectUid", ReqValue.str "project-1"), ("show_de_novo", ReqValue.num 1)]
    ∧ sampleRefListViewFalse.redrawOptions.requestData
        = [("projectUid", ReqValue.str "project-1"), ("show_de_novo", ReqValue.num 0)]
    ∧ (sampleRefListViewFalse.render).show_de_novo = true :=
  ⟨(C7_ref_genome_request_encoding sampleRefListViewTrue []).2.2.2.1 rfl,
   (C7_ref_genome_request_encoding sampleRefListViewFalse []).2.2.2.2 rfl,
   (C7_ref_genome_request_encoding sampleRefListViewFalse []).1⟩

end Gd
